import Mathlib

/-!
# Verification of the Gps-Uber ride-map components

Shallow embedding of the three iterations of the ride-tracking map component:

* `RideMapMultiLeg`, first iteration (`src/unnamed/part_000`, lines 1-418):
  two legs (driver → user, user → destination), 300 ms debounce, no abort.
* `RideMapMultiLeg`, third iteration (`src/unnamed/part_000`, lines 419-956):
  per-leg rate/distance gating, AbortController-based cancellation,
  stale-response rejection, 350 ms debounce.
* `RideMapWithVias` (`src/frontend/src/MapView.jsx`): user → vias → destination
  chain, 300 ms debounce, cancellation via a `canceled` flag.

JavaScript floating-point arithmetic is modelled over `ℚ`; the transcendental
functions used by the haversine formula (`Math.sin`, `Math.cos`, `Math.asin`,
`Math.sqrt`) and the constant `Math.PI` are abstracted as a record of
uninterpreted functions `TrigOps`, so every claim proved about the geometry is
independent of the numeric interpretation.  String formatting of numbers
(`toFixed`) is likewise abstracted as a function parameter at the display
boundary.  Points stored in component state are either `null` or a valid
finite `[lat, lon]` pair, so they are modelled as `Option (ℚ × ℚ)` and the
source's `isLatLng` test becomes `Option.isSome`.
-/

/-- A `[lat, lon]` pair as stored in component state. First component is the
latitude, second the longitude. -/
abbrev Point : Type := ℚ × ℚ

/-- The transcendental operations of `Math` used by `haversineKm`, left
uninterpreted: every theorem below holds for any interpretation. -/
structure TrigOps where
  sin : ℚ → ℚ
  cos : ℚ → ℚ
  asin : ℚ → ℚ
  sqrt : ℚ → ℚ
  pi : ℚ

/-- A trivial interpretation of the trig operations, used to instantiate
universally quantified theorems at concrete inputs. -/
def trigZero : TrigOps :=
  { sin := fun _ => 0, cos := fun _ => 0, asin := fun _ => 0,
    sqrt := fun _ => 0, pi := 0 }

/-- `haversineKm`, translated from the identical definitions in
`src/frontend/src/MapView.jsx` lines 37-41 and `src/unnamed/part_000`
lines 59-69 and 450-460:
`R = 6371`, `dLat = (lat2-lat1)*π/180`, `dLon = (lon2-lon1)*π/180`,
`a = sin²(dLat/2) + cos(lat1·π/180)·cos(lat2·π/180)·sin²(dLon/2)`,
result `2·R·asin(sqrt a)`. -/
def haversineKm (T : TrigOps) (p1 p2 : Point) : ℚ :=
  let R : ℚ := 6371
  let dLat := (p2.1 - p1.1) * T.pi / 180
  let dLon := (p2.2 - p1.2) * T.pi / 180
  let a := T.sin (dLat / 2) ^ 2 +
    T.cos (p1.1 * T.pi / 180) * T.cos (p2.1 * T.pi / 180) * T.sin (dLon / 2) ^ 2
  2 * R * T.asin (T.sqrt a)

/-- Degrees to radians, `x · π / 180`. -/
def degToRad (T : TrigOps) (x : ℚ) : ℚ := x * T.pi / 180

/-- Modelled from the spec: the great-circle distance as the spec states it,
`2·R·asin(sqrt(sin²(dLat/2) + cos(lat1)·cos(lat2)·sin²(dLon/2)))` with
`R = 6371` and all angles converted to radians.  This is the refinement
definition written from the spec's words, to be compared with the source's
`haversineKm`. -/
def haversineKmSpec (T : TrigOps) (p1 p2 : Point) : ℚ :=
  let R : ℚ := 6371
  let dLat := degToRad T (p2.1 - p1.1)
  let dLon := degToRad T (p2.2 - p1.2)
  2 * R * T.asin (T.sqrt (T.sin (dLat / 2) ^ 2 +
    T.cos (degToRad T p1.1) * T.cos (degToRad T p2.1) * T.sin (dLon / 2) ^ 2))

/-- `distanceMeters` from `src/unnamed/part_000` lines 461-463:
`haversineKm(a, b) * 1000`. -/
def distanceMeters (T : TrigOps) (a b : Point) : ℚ :=
  haversineKm T a b * 1000

/-- JavaScript `Math.round` on a rational: round half toward `+∞`,
`⌊x + 1/2⌋`. -/
def jsRound (q : ℚ) : ℤ := ⌊q + 1 / 2⌋

/-- The fallback ETA written by the straight-line effects
(`Math.max(1, Math.round((km / 25) * 60))`, 25 km/h city speed):
`src/frontend/src/MapView.jsx` line 80, `src/unnamed/part_000`
lines 137, 152, 599, 610. -/
def etaFallback (km : ℚ) : ℤ := max 1 (jsRound (km / 25 * 60))

/-- The ETA written from an OSRM route's duration (seconds):
`Math.max(1, Math.round(r.duration / 60))`, `src/frontend/src/MapView.jsx`
line 123, `src/unnamed/part_000` lines 189, 679, 683. -/
def etaRoute (durationS : ℚ) : ℤ := max 1 (jsRound (durationS / 60))

/-- JavaScript `m || dflt` on a nullable string: `null` and the empty string
are falsy. -/
def jsOrStr (m : Option String) (dflt : String) : String :=
  match m with
  | some s => if s = "" then dflt else s
  | none => dflt

/-- JavaScript `m || 0` on a nullable integer: `null` and `0` are falsy. -/
def jsOrInt (m : Option ℤ) : ℤ :=
  match m with
  | some v => if v = 0 then 0 else v
  | none => 0

/-- `totalMin` from `src/unnamed/part_000` lines 99-104 and 550-555:
`(minDU || 0) + (minUD || 0)`, shown only when the sum is positive. -/
def totalMin (minDU minUD : Option ℤ) : Option ℤ :=
  let a := jsOrInt minDU
  let b := jsOrInt minUD
  let sum := a + b
  if sum > 0 then some sum else none

/-- The straight-line chain length of `RideMapWithVias`
(`src/frontend/src/MapView.jsx` lines 77-78): starting from `km = 0`,
`for (let i = 0; i < pts.length - 1; i++) km += haversineKm(pts[i], pts[i+1])`. -/
def codeChainKm (T : TrigOps) (pts : List Point) : ℚ :=
  (List.range (pts.length - 1)).foldl
    (fun km i => km + haversineKm T (pts.getD i (0, 0)) (pts.getD (i + 1) (0, 0))) 0

/-- Modelled from the spec: "the sum of this quantity over consecutive points
of the chain user -> via1 -> ... -> destination" — the sum of
`haversineKmSpec` over consecutive pairs of the point list. -/
def specChainKm (T : TrigOps) (pts : List Point) : ℚ :=
  ((pts.zip pts.tail).map (fun ab => haversineKmSpec T ab.1 ab.2)).sum

/-!
## The third iteration: `RideMapMultiLeg` with gating and abortable fetches

State model of `src/unnamed/part_000` lines 529-956.  AbortControllers are
modelled as tokens drawn from a strictly increasing counter `nextTok`; the
per-leg ref `abortDU` / `abortUD` holds the token of the current controller,
and calling `.abort()` on a controller adds its token to the `aborted` list.
A network request is issued exactly when `fetchLegStart` returns a token. -/

/-- The two logical legs: driver → user (`"DU"`) and user → destination
(`"UD"`). -/
inductive Leg where
  | DU
  | UD
deriving DecidableEq, Repr

/-- The per-leg record `{ from, to, ts }` held in the refs `lastDU` /
`lastUD` (`src/unnamed/part_000` lines 570-571): last routed endpoints and
the time of the last fetch. -/
structure GateRec where
  fromPt : Option Point
  toPt : Option Point
  ts : ℤ
deriving DecidableEq, Repr

/-- All per-leg component state of the third iteration: route polyline,
distance (km, numeric value before `toFixed(2)` formatting), ETA (minutes),
loading flag, gating record and current AbortController token. -/
structure LegData where
  route : List Point
  km : Option ℚ
  mins : Option ℤ
  loading : Bool
  gate : GateRec
  ctrl : Option ℕ
deriving DecidableEq, Repr

/-- The component state of the third `RideMapMultiLeg`.  `nextTok` is the
allocator for AbortController tokens; `aborted` records every controller on
which `.abort()` has been called. -/
structure St where
  position : Option Point
  accuracy : Option ℚ
  driver : Option Point
  dest : Option Point
  du : LegData
  ud : LegData
  error : String
  follow : Bool
  nextTok : ℕ
  aborted : List ℕ
deriving DecidableEq, Repr

/-- Select a leg's data. -/
def getLeg (s : St) : Leg → LegData
  | .DU => s.du
  | .UD => s.ud

/-- Replace a leg's data. -/
def setLeg (s : St) (l : Leg) (d : LegData) : St :=
  match l with
  | .DU => { s with du := d }
  | .UD => { s with ud := d }

/-- `MIN_MOVE_M` (`src/unnamed/part_000` line 566): moves smaller than this
many meters are ignored by the distance gate. -/
def MIN_MOVE_M : ℚ := 30

/-- `MIN_FETCH_INTERVAL_MS` (`src/unnamed/part_000` line 567): per-leg fetch
rate limit. -/
def MIN_FETCH_INTERVAL_MS : ℤ := 5000

/-- The gate test of `fetchLeg` (`src/unnamed/part_000` lines 623-632):
`distChange` is the max of the endpoint movements when the record's endpoints
are valid, `Infinity` otherwise (the `none` branch below, which never passes
`< MIN_MOVE_M`); the fetch is skipped when
`now - rec.ts < MIN_FETCH_INTERVAL_MS && distChange < MIN_MOVE_M`. -/
def skipGate (T : TrigOps) (d : LegData) (f t : Point) (now : ℤ) : Bool :=
  decide (now - d.gate.ts < MIN_FETCH_INTERVAL_MS) &&
    (match d.gate.fromPt, d.gate.toPt with
     | some rf, some rt =>
       decide (max (distanceMeters T rf f) (distanceMeters T rt t) < MIN_MOVE_M)
     | _, _ => false)

/-- The synchronous prefix of `fetchLeg` (`src/unnamed/part_000` lines
619-653): bail out on invalid endpoints; apply the rate/distance gate; abort
the previous controller; allocate and store a fresh controller; record the
new endpoints and timestamp; set the loading flag.  Returns the new state and
`some token` exactly when a network request is issued with that controller's
signal. -/
def fetchLegStart (T : TrigOps) (s : St) (leg : Leg) (fromP toP : Option Point)
    (now : ℤ) : St × Option ℕ :=
  match fromP, toP with
  | some f, some t =>
    let d := getLeg s leg
    if skipGate T d f t now then
      (s, none)
    else
      let abortedNew :=
        match d.ctrl with
        | some c => c :: s.aborted
        | none => s.aborted
      let tok := s.nextTok
      let d' := { d with ctrl := some tok,
                         gate := ⟨some f, some t, now⟩,
                         loading := true }
      ({ setLeg s leg d' with nextTok := tok + 1, aborted := abortedNew },
       some tok)
  | _, _ => (s, none)

/-- The success continuation of `fetchLeg` (`src/unnamed/part_000` lines
664-684 and the `finally` on line 690): with route distance `distM` (meters)
and duration `durS` (seconds), the response is applied only when its
controller is still the leg's current one (`stillLatest`); a stale response
changes nothing except the loading flag reset by `finally`. -/
def fetchLegSuccess (s : St) (leg : Leg) (tok : ℕ) (path : List Point)
    (distM durS : ℚ) : St :=
  let d := getLeg s leg
  if d.ctrl = some tok then
    setLeg s leg { d with route := path,
                          km := some (distM / 1000),
                          mins := some (etaRoute durS),
                          loading := false }
  else
    setLeg s leg { d with loading := false }

/-- The catch/finally of `fetchLeg` (`src/unnamed/part_000` lines 685-691):
an `AbortError` (`isAbort = true`) is swallowed; any other failure sets the
error string `(e?.message || "Route fetch failed") + " — showing
straight-line estimate."`; `finally` resets the loading flag in both cases. -/
def fetchLegError (s : St) (leg : Leg) (isAbort : Bool) (msg : Option String) :
    St :=
  let d := getLeg s leg
  if isAbort then
    setLeg s leg { d with loading := false }
  else
    { setLeg s leg { d with loading := false } with
      error := jsOrStr msg ("Route fetch failed") ++ " — showing straight-line estimate." }

/-- The driver → user straight-line fallback effect (`src/unnamed/part_000`
lines 595-604): when both endpoints are valid, write the haversine distance
and the 25 km/h ETA; otherwise clear them.  This iteration does not clear the
polylines. -/
def fallbackDU (T : TrigOps) (s : St) : St :=
  match s.driver, s.position with
  | some dr, some p =>
    let dKm := haversineKm T dr p
    setLeg s .DU { s.du with km := some dKm, mins := some (etaFallback dKm) }
  | _, _ => setLeg s .DU { s.du with km := none, mins := none }

/-- The user → destination straight-line fallback effect
(`src/unnamed/part_000` lines 606-615). -/
def fallbackUD (T : TrigOps) (s : St) : St :=
  match s.position, s.dest with
  | some p, some d =>
    let dKm := haversineKm T p d
    setLeg s .UD { s.ud with km := some dKm, mins := some (etaFallback dKm) }
  | _, _ => setLeg s .UD { s.ud with km := none, mins := none }

/-- `[c]` when an AbortController is present, `[]` otherwise. -/
def ctrlToList (c : Option ℕ) : List ℕ :=
  match c with
  | some tok => [tok]
  | none => []

/-- The Clear button handler of the third iteration (`src/unnamed/part_000`
lines 897-914): null driver/dest, null distances and ETAs, empty error,
re-enable follow, empty polylines, reset both gating records, abort both
current controllers.  The loading flags, controller refs and GPS state are
untouched. -/
def clearV3 (s : St) : St :=
  { s with driver := none,
           dest := none,
           du := { s.du with km := none, mins := none, route := [],
                             gate := ⟨none, none, 0⟩ },
           ud := { s.ud with km := none, mins := none, route := [],
                             gate := ⟨none, none, 0⟩ },
           error := "",
           follow := true,
           aborted := ctrlToList s.du.ctrl ++ ctrlToList s.ud.ctrl ++ s.aborted }

/-- The initial component state: every point and scalar `null`/empty, follow
mode on, no controller allocated. -/
def initState : St :=
  { position := none, accuracy := none, driver := none, dest := none,
    du := { route := [], km := none, mins := none, loading := false,
            gate := ⟨none, none, 0⟩, ctrl := none },
    ud := { route := [], km := none, mins := none, loading := false,
            gate := ⟨none, none, 0⟩, ctrl := none },
    error := "", follow := true, nextTok := 0, aborted := [] }

/-- Events of the third iteration's request lifecycle, interleaved by the
single-threaded event loop: a debounced `fetchLeg` invocation, a success or
failure continuation of an awaited fetch, the two fallback effects, the Clear
button, and the tap handlers that set the driver or destination. -/
inductive Ev where
  | start : Leg → Option Point → Option Point → ℤ → Ev
  | success : Leg → ℕ → List Point → ℚ → ℚ → Ev
  | failure : Leg → Bool → Option String → Ev
  | fallDU : Ev
  | fallUD : Ev
  | clear : Ev
  | setDriver : Option Point → Ev
  | setDest : Option Point → Ev

/-- One event-loop step of the third iteration. -/
def stepV3 (T : TrigOps) (s : St) : Ev → St
  | .start leg f t now => (fetchLegStart T s leg f t now).1
  | .success leg tok path distM durS => fetchLegSuccess s leg tok path distM durS
  | .failure leg isAbort msg => fetchLegError s leg isAbort msg
  | .fallDU => fallbackDU T s
  | .fallUD => fallbackUD T s
  | .clear => clearV3 s
  | .setDriver p => { s with driver := p }
  | .setDest p => { s with dest := p }

/-- Run a list of events from a state. -/
def runV3 (T : TrigOps) (s : St) (es : List Ev) : St :=
  es.foldl (stepV3 T) s

/-- Every controller token a reachable state holds is below the allocation
counter; a freshly allocated token therefore differs from every token
previously stored. -/
def ctrlBound (s : St) : Prop :=
  ∀ l : Leg, ∀ tok : ℕ, (getLeg s l).ctrl = some tok → tok < s.nextTok

/-!
## Debounce timers

The OSRM effect of each iteration schedules its `fetchLeg` calls behind a
`setTimeout` whose handle is cleared by the effect cleanup when the inputs
change or the component unmounts (`src/unnamed/part_000` lines 198-204 and
694-700, `src/frontend/src/MapView.jsx` lines 108-131).  A timer is a handle
id plus its delay and the captured arguments; firing requires the pending
slot to still hold the same handle. -/

/-- Debounce delay of the first `RideMapMultiLeg` iteration
(`src/unnamed/part_000` lines 199-200). -/
def DEBOUNCE_MS_V1 : ℕ := 300

/-- Debounce delay of `RideMapWithVias` (`src/frontend/src/MapView.jsx`
line 129). -/
def DEBOUNCE_MS_VIAS : ℕ := 300

/-- Debounce delay of the third `RideMapMultiLeg` iteration
(`src/unnamed/part_000` lines 695-696). -/
def DEBOUNCE_MS_V3 : ℕ := 350

/-- A pending `setTimeout`: handle id, delay in ms, and the leg endpoints
captured by the closure. -/
structure PendingTimer where
  id : ℕ
  delayMs : ℕ
  args : Option Point × Option Point
deriving DecidableEq, Repr

/-- Schedule a debounced `fetchLeg` call in the third iteration:
`setTimeout(() => fetchLeg(...), 350)`. -/
def scheduleV3 (id : ℕ) (a : Option Point × Option Point) : PendingTimer :=
  ⟨id, DEBOUNCE_MS_V3, a⟩

/-- `clearTimeout` in the effect cleanup: the pending slot is emptied. -/
def cancelTimer (_ : Option PendingTimer) : Option PendingTimer := none

/-- A timer fires only if the pending slot still holds its handle; it then
delivers the captured `fetchLeg` arguments. -/
def fireTimer (p : Option PendingTimer) (id : ℕ) :
    Option (Option Point × Option Point) :=
  match p with
  | some t => if t.id = id then some t.args else none
  | none => none

/-!
## The first iteration: `RideMapMultiLeg` without gating

State model of `src/unnamed/part_000` lines 76-418, for the parts the claims
touch: the error handler of its `fetchLeg` and the Clear button. -/

/-- Component state of the first `RideMapMultiLeg` iteration. -/
structure V1State where
  position : Option Point
  accuracy : Option ℚ
  driver : Option Point
  dest : Option Point
  routeDU : List Point
  routeUD : List Point
  kmDU : Option ℚ
  kmUD : Option ℚ
  minDU : Option ℤ
  minUD : Option ℤ
  loadingDU : Bool
  loadingUD : Bool
  error : String
deriving DecidableEq, Repr

/-- The catch/finally of the first iteration's `fetchLeg`
(`src/unnamed/part_000` lines 190-195): set the error string
`(e?.message || "Route fetch failed") + " — showing straight-line
estimate."`, keep the existing fallback numbers and polyline, reset the
loading flag. -/
def v1FetchError (s : V1State) (leg : Leg) (msg : Option String) : V1State :=
  let withErr :=
    { s with error := jsOrStr msg ("Route fetch failed") ++ " — showing straight-line estimate." }
  match leg with
  | .DU => { withErr with loadingDU := false }
  | .UD => { withErr with loadingUD := false }

/-- The Clear button of the first iteration (`src/unnamed/part_000` lines
368-379): null driver/dest, empty polylines, null distances and ETAs, empty
error. -/
def clearV1 (s : V1State) : V1State :=
  { s with driver := none, dest := none, routeDU := [], routeUD := [],
           kmDU := none, kmUD := none, minDU := none, minUD := none,
           error := "" }

/-!
## `RideMapWithVias`

State model of `src/frontend/src/MapView.jsx`. -/

/-- Component state of `RideMapWithVias`. -/
structure ViasState where
  position : Option Point
  accuracy : Option ℚ
  dest : Option Point
  vias : List Point
  routeCoords : List Point
  distanceKm : Option ℚ
  durationMin : Option ℤ
  loading : Bool
  error : String
  avoidMotorway : Bool
  avoidFerry : Bool
  avoidToll : Bool
deriving DecidableEq, Repr

/-- The map click handler (`TapHandler`, `src/frontend/src/MapView.jsx`
lines 28-36, wired on lines 156-159): Shift+click appends the clicked point
to the vias (`setVias(v => [...v, pt])`), a plain click sets the destination. -/
def handleTap (s : ViasState) (pt : Point) (shift : Bool) : ViasState :=
  if shift then { s with vias := s.vias ++ [pt] }
  else { s with dest := some pt }

/-- The straight-line fallback effect of `RideMapWithVias`
(`src/frontend/src/MapView.jsx` lines 73-83): when position and destination
are valid, sum the haversine distances along `[position, ...vias, dest]`,
write the 25 km/h ETA and clear the polyline until OSRM arrives. -/
def viasFallback (T : TrigOps) (s : ViasState) : ViasState :=
  match s.position, s.dest with
  | some p, some d =>
    let pts := p :: (s.vias ++ [d])
    let km := codeChainKm T pts
    { s with distanceKm := some km,
             durationMin := some (etaFallback km),
             routeCoords := [] }
  | _, _ => s

/-- `buildRouteUrl` (`src/frontend/src/MapView.jsx` lines 86-97), with the
JavaScript number rendering of coordinates abstracted as `fmt` and
`encodeURIComponent` abstracted as `enc`: `null` when any point of
`[position, ...vias, dest]` is invalid, otherwise the OSRM driving URL over
`lon,lat` pairs joined by `;`, with the chosen `exclude` classes appended. -/
def buildRouteUrl (fmt : ℚ → String) (enc : String → String) (s : ViasState) :
    Option String :=
  match s.position, s.dest with
  | some p, some d =>
    let all := p :: (s.vias ++ [d])
    let coordsStr :=
      String.intercalate (";") (all.map fun pt => fmt pt.2 ++ "," ++ fmt pt.1)
    let exclude :=
      String.intercalate (",")
        (List.filterMap id
          [if s.avoidMotorway then some ("motorway") else none,
           if s.avoidFerry then some ("ferry") else none,
           if s.avoidToll then some ("toll") else none])
    some ("https://router.project-osrm.org/route/v1/driving/" ++ coordsStr ++
      "?overview=full&geometries=geojson&steps=false&alternatives=false&continue_straight=true" ++
      (if exclude = "" then "" else "&exclude=" ++ enc exclude))
  | _, _ => none

/-- The OSRM request URL of both `RideMapMultiLeg` iterations
(`src/unnamed/part_000` lines 168-171 and 649-652), with number rendering
abstracted as `fmt`: `lon,lat;lon,lat` between the fixed prefix and query
string. -/
def osrmUrl (fmt : ℚ → String) (f t : Point) : String :=
  let coords := fmt f.2 ++ "," ++ fmt f.1 ++ ";" ++ fmt t.2 ++ "," ++ fmt t.1
  "https://router.project-osrm.org/route/v1/driving/" ++ coords ++
    "?overview=full&geometries=geojson&alternatives=false&steps=false&continue_straight=true"

/-- The catch/finally of the `RideMapWithVias` OSRM effect
(`src/frontend/src/MapView.jsx` lines 124-128): when the effect has been
cancelled nothing happens; otherwise the error string
`(e?.message || "Route fetch failed") + " — showing straight-line."` is set
and the loading flag reset. -/
def viasFetchError (s : ViasState) (canceled : Bool) (msg : Option String) :
    ViasState :=
  if canceled then s
  else
    { s with error := jsOrStr msg ("Route fetch failed") ++ " — showing straight-line.",
             loading := false }

/-- The Clear button of `RideMapWithVias` (`src/frontend/src/MapView.jsx`
lines 237-244): null destination, empty vias and polyline, null distance and
ETA, empty error. -/
def clearVias (s : ViasState) : ViasState :=
  { s with dest := none, vias := [], routeCoords := [],
           distanceKm := none, durationMin := none, error := "" }

/-- The distance cell of the per-leg bottom bar
(`src/unnamed/part_000` lines 350, 357, 879, 886): the stored value rendered
through `toFixed(2)`-style formatting `fmt`, shown as `—` when the value is
`null` (or formats to the empty string, which is falsy in JavaScript). -/
def renderKm (fmt : ℚ → String) (km : Option ℚ) : String :=
  match km with
  | some q => if fmt q = "" then "—" else fmt q ++ " km"
  | none => "—"

/-- A concrete state of the third iteration used to instantiate universally
quantified theorems: a destination and driver are set, both legs routed at
time 0, controllers 0 and 1 allocated. -/
def sampleSt : St :=
  { position := some (1, 2), accuracy := some 5, driver := some (3, 4),
    dest := some (5, 6),
    du := { route := [(1, 1)], km := some 2, mins := some 3, loading := false,
            gate := ⟨some (3, 4), some (1, 2), 0⟩, ctrl := some 0 },
    ud := { route := [(2, 2)], km := some 4, mins := some 5, loading := false,
            gate := ⟨some (1, 2), some (5, 6), 0⟩, ctrl := some 1 },
    error := "", follow := true, nextTok := 2, aborted := [] }

/-- A concrete `RideMapWithVias` state for witnesses. -/
def sampleVias : ViasState :=
  { position := some (1, 2), accuracy := some 5, dest := some (5, 6),
    vias := [(7, 8)], routeCoords := [(1, 1)], distanceKm := some 2,
    durationMin := some 3, loading := false, error := "",
    avoidMotorway := false, avoidFerry := false, avoidToll := false }

/-- A concrete first-iteration state for witnesses. -/
def sampleV1 : V1State :=
  { position := some (1, 2), accuracy := some 5, driver := some (3, 4),
    dest := some (5, 6), routeDU := [(1, 1)], routeUD := [(2, 2)],
    kmDU := some 2, kmUD := some 4, minDU := some 3, minUD := some 5,
    loadingDU := false, loadingUD := false, error := "" }

/-- A trivial coordinate formatter used to instantiate universally
quantified theorems at concrete inputs. -/
def fmtZero : ℚ → String := fun _ => "0"

/-!
## Theorems -/

lemma getLeg_setLeg (s : St) (l l' : Leg) (d : LegData) :
    getLeg (setLeg s l d) l' = if l' = l then d else getLeg s l' := by
  cases l <;> cases l' <;> simp [getLeg, setLeg]

lemma getLeg_setLeg_self (s : St) (l : Leg) (d : LegData) :
    getLeg (setLeg s l d) l = d := by
  cases l <;> rfl

lemma haversineKm_eq_spec (T : TrigOps) (p1 p2 : Point) :
    haversineKm T p1 p2 = haversineKmSpec T p1 p2 := rfl

lemma foldl_add_eq_sum (g : ℕ → ℚ) (c : ℚ) (l : List ℕ) :
    l.foldl (fun a i => a + g i) c = c + (l.map g).sum := by
  induction l generalizing c with
  | nil => simp
  | cons x xs ih => simp [ih, add_assoc]

lemma codeChainKm_eq_spec (T : TrigOps) (pts : List Point) :
    codeChainKm T pts = specChainKm T pts := by
  unfold codeChainKm
  rw [foldl_add_eq_sum, zero_add]
  induction pts with
  | nil => simp [specChainKm]
  | cons a t ih =>
    cases t with
    | nil => simp [specChainKm]
    | cons b t2 =>
      have hlen : (a :: b :: t2 : List Point).length - 1 = (b :: t2 : List Point).length - 1 + 1 := by
        simp
      rw [hlen, List.range_succ_eq_map, List.map_cons, List.map_map, List.sum_cons]
      have harg : ((b :: t2 : List Point).length - 1 = (b :: t2 : List Point).length - 1) := rfl
      have hmaps :
          (List.range ((b :: t2 : List Point).length - 1)).map
              ((fun i => haversineKm T ((a :: b :: t2 : List Point).getD i (0, 0))
                ((a :: b :: t2 : List Point).getD (i + 1) (0, 0))) ∘ Nat.succ)
            = (List.range ((b :: t2 : List Point).length - 1)).map
              (fun i => haversineKm T ((b :: t2 : List Point).getD i (0, 0))
                ((b :: t2 : List Point).getD (i + 1) (0, 0))) := by
        apply List.map_congr_left
        intro i _
        rfl
      rw [hmaps, ih]
      simp [specChainKm, haversineKm_eq_spec]

/-- C5: the instant fallback distance equals the great-circle distance given
by the haversine formula with Earth radius `R = 6371` km (angles in radians),
and in the vias version the fallback is the sum of this quantity over
consecutive points of the chain user → via1 → ... → destination.  Holds for
every interpretation `T` of the floating-point trig operations. -/
theorem fallback_is_haversine :
    (∀ T : TrigOps, ∀ p1 p2 : Point, haversineKm T p1 p2 = haversineKmSpec T p1 p2)
    ∧ (∀ T : TrigOps, ∀ pts : List Point, codeChainKm T pts = specChainKm T pts) :=
  ⟨haversineKm_eq_spec, codeChainKm_eq_spec⟩

/-- C8: in the vias version, a Shift+click appends the clicked point to the
end of the vias list and leaves the existing vias and the destination
unchanged, while a plain click sets the destination to the clicked point and
leaves the vias unchanged. -/
theorem shift_click_adds_via (s : ViasState) (pt : Point) :
    (handleTap s pt true).vias = s.vias ++ [pt]
    ∧ (handleTap s pt true).dest = s.dest
    ∧ (handleTap s pt false).dest = some pt
    ∧ (handleTap s pt false).vias = s.vias :=
  ⟨rfl, rfl, rfl, rfl⟩

/-- C9: every stored ETA is at least 1 minute: the fallback ETA
`max(1, round(km/25·60))` and the OSRM-route ETA `max(1, round(dur/60))` are
integers `≥ 1`, and the displayed total ETA, whenever `totalMin` yields a
value, is also `≥ 1`. -/
theorem eta_at_least_one :
    (∀ km : ℚ, 1 ≤ etaFallback km)
    ∧ (∀ durS : ℚ, 1 ≤ etaRoute durS)
    ∧ (∀ a b : Option ℤ, ∀ t : ℤ, totalMin a b = some t → 1 ≤ t) := by
  refine ⟨fun km => le_max_left 1 _, fun d => le_max_left 1 _, ?_⟩
  intro a b t h
  by_cases hp : jsOrInt a + jsOrInt b > 0
  · simp [totalMin, hp] at h
    omega
  · simp [totalMin, hp] at h

theorem eta_at_least_one_witness : (1 : ℤ) ≤ 3 :=
  eta_at_least_one.2.2 (some 1) (some 2) 3 (by decide)

/-- C7: when the destination is unset, the user-to-destination straight-line
effect writes `null` distance and ETA, the bottom-bar cell renders the
placeholder `—`, and the debounced `fetchLeg` for that leg bails out without
touching any state, so the value stays `null`. -/
theorem dest_unset_distance_dash (T : TrigOps) (s s2 : St) (fmt : ℚ → String)
    (fromP : Option Point) (now : ℤ) :
    (getLeg (fallbackUD T { s with dest := none }) .UD).km = none
    ∧ (getLeg (fallbackUD T { s with dest := none }) .UD).mins = none
    ∧ renderKm fmt (getLeg (fallbackUD T { s with dest := none }) .UD).km = "—"
    ∧ fetchLegStart T s2 .UD fromP none now = (s2, none) := by
  refine ⟨?_, ?_, ?_, ?_⟩
  · cases hp : s.position <;> simp [fallbackUD, hp, getLeg, setLeg]
  · cases hp : s.position <;> simp [fallbackUD, hp, getLeg, setLeg]
  · cases hp : s.position <;> simp [fallbackUD, hp, getLeg, setLeg, renderKm]
  · cases fromP <;> rfl

/-- C2: route fetches are debounced and rate- and distance-gated: the debounce
delays are 300 ms in the first two versions and 350 ms in the third; a timer
cancelled by the effect cleanup (because the inputs changed or the component
unmounted) never fires; and a `fetchLeg` call is skipped entirely — no
request token issued, state unchanged — when less than
`MIN_FETCH_INTERVAL_MS` has elapsed since the leg's last fetch and both
endpoints moved less than `MIN_MOVE_M` meters from the previously routed
endpoints. -/
theorem debounce_and_gate :
    (DEBOUNCE_MS_V1 = 300 ∧ DEBOUNCE_MS_VIAS = 300 ∧ DEBOUNCE_MS_V3 = 350)
    ∧ (∀ p : Option PendingTimer, ∀ id : ℕ, fireTimer (cancelTimer p) id = none)
    ∧ (∀ id id' : ℕ, ∀ a : Option Point × Option Point, id ≠ id' →
        fireTimer (some (scheduleV3 id' a)) id = none)
    ∧ (∀ T : TrigOps, ∀ s : St, ∀ leg : Leg, ∀ f t rf rt : Point, ∀ now : ℤ,
        (getLeg s leg).gate.fromPt = some rf →
        (getLeg s leg).gate.toPt = some rt →
        now - (getLeg s leg).gate.ts < MIN_FETCH_INTERVAL_MS →
        distanceMeters T rf f < MIN_MOVE_M →
        distanceMeters T rt t < MIN_MOVE_M →
        fetchLegStart T s leg (some f) (some t) now = (s, none)) := by
  refine ⟨⟨rfl, rfl, rfl⟩, fun p id => rfl, ?_, ?_⟩
  · intro id id' a h
    simp [fireTimer, scheduleV3, Ne.symm h]
  · intro T s leg f t rf rt now hf ht hts hdf hdt
    have hskip : skipGate T (getLeg s leg) f t now = true := by
      simp [skipGate, hf, ht, hts, max_lt hdf hdt]
    simp [fetchLegStart, hskip]

theorem debounce_and_gate_witness :
    fireTimer (some (scheduleV3 1 (none, none))) 0 = none
    ∧ fetchLegStart trigZero sampleSt .DU (some (3, 4)) (some (1, 2)) 0
        = (sampleSt, none) :=
  ⟨debounce_and_gate.2.2.1 0 1 (none, none) (by decide),
   debounce_and_gate.2.2.2 trigZero sampleSt .DU (3, 4) (1, 2) (3, 4) (1, 2) 0
     rfl rfl (by decide)
     (by simp [distanceMeters, haversineKm, trigZero, MIN_MOVE_M])
     (by simp [distanceMeters, haversineKm, trigZero, MIN_MOVE_M])⟩

lemma errStrV3 (s : St) (leg : Leg) (msg : Option String) :
    (fetchLegError s leg false msg).error
      = (jsOrStr msg ("Route fetch failed") ++ " ")
          ++ "— showing straight-line estimate." := by
  cases leg <;>
    (simp only [fetchLegError, if_neg Bool.false_ne_true, setLeg, getLeg]
     rw [show (" — showing straight-line estimate." : String)
           = " " ++ "— showing straight-line estimate." from rfl,
         ← String.append_assoc])

lemma errStrV1 (sv : V1State) (leg : Leg) (msg : Option String) :
    (v1FetchError sv leg msg).error
      = (jsOrStr msg ("Route fetch failed") ++ " ")
          ++ "— showing straight-line estimate." := by
  cases leg <;>
    (simp only [v1FetchError]
     rw [show (" — showing straight-line estimate." : String)
           = " " ++ "— showing straight-line estimate." from rfl,
         ← String.append_assoc])

lemma errStrVias (sw : ViasState) (msg : Option String) :
    (viasFetchError sw false msg).error
      = (jsOrStr msg ("Route fetch failed") ++ " ")
          ++ "— showing straight-line." := by
  simp only [viasFetchError, if_neg Bool.false_ne_true]
  rw [show (" — showing straight-line." : String)
        = " " ++ "— showing straight-line." from rfl,
      ← String.append_assoc]

/-- C4: in every version, a failed route fetch is caught locally: the error
string is set to a message ending in `— showing straight-line estimate.`
(multi-leg iterations) or `— showing straight-line.` (vias version), the
previously computed distance and ETA values and the polylines are left
unchanged, and apart from the error string and the loading flag nothing else
changes. -/
theorem route_error_keeps_fallback (s : St) (leg : Leg) (msg : Option String)
    (sv : V1State) (sw : ViasState) :
    (∃ p, (fetchLegError s leg false msg).error
        = p ++ "— showing straight-line estimate.")
    ∧ (∀ l : Leg,
        (getLeg (fetchLegError s leg false msg) l).km = (getLeg s l).km
        ∧ (getLeg (fetchLegError s leg false msg) l).mins = (getLeg s l).mins
        ∧ (getLeg (fetchLegError s leg false msg) l).route = (getLeg s l).route
        ∧ (getLeg (fetchLegError s leg false msg) l).ctrl = (getLeg s l).ctrl
        ∧ (getLeg (fetchLegError s leg false msg) l).gate = (getLeg s l).gate)
    ∧ (fetchLegError s leg false msg).position = s.position
    ∧ (fetchLegError s leg false msg).accuracy = s.accuracy
    ∧ (fetchLegError s leg false msg).driver = s.driver
    ∧ (fetchLegError s leg false msg).dest = s.dest
    ∧ (fetchLegError s leg false msg).follow = s.follow
    ∧ (fetchLegError s leg false msg).nextTok = s.nextTok
    ∧ (fetchLegError s leg false msg).aborted = s.aborted
    ∧ (getLeg (fetchLegError s leg false msg) leg).loading = false
    ∧ (∃ p, (v1FetchError sv leg msg).error
        = p ++ "— showing straight-line estimate.")
    ∧ (v1FetchError sv leg msg).kmDU = sv.kmDU
    ∧ (v1FetchError sv leg msg).kmUD = sv.kmUD
    ∧ (v1FetchError sv leg msg).minDU = sv.minDU
    ∧ (v1FetchError sv leg msg).minUD = sv.minUD
    ∧ (v1FetchError sv leg msg).routeDU = sv.routeDU
    ∧ (v1FetchError sv leg msg).routeUD = sv.routeUD
    ∧ (v1FetchError sv leg msg).position = sv.position
    ∧ (v1FetchError sv leg msg).accuracy = sv.accuracy
    ∧ (v1FetchError sv leg msg).driver = sv.driver
    ∧ (v1FetchError sv leg msg).dest = sv.dest
    ∧ (∃ p, (viasFetchError sw false msg).error
        = p ++ "— showing straight-line.")
    ∧ (viasFetchError sw false msg).distanceKm = sw.distanceKm
    ∧ (viasFetchError sw false msg).durationMin = sw.durationMin
    ∧ (viasFetchError sw false msg).routeCoords = sw.routeCoords
    ∧ (viasFetchError sw false msg).position = sw.position
    ∧ (viasFetchError sw false msg).accuracy = sw.accuracy
    ∧ (viasFetchError sw false msg).dest = sw.dest
    ∧ (viasFetchError sw false msg).vias = sw.vias
    ∧ (viasFetchError sw false msg).loading = false := by
  refine ⟨⟨jsOrStr msg ("Route fetch failed") ++ " ", errStrV3 s leg msg⟩,
    ?_, ?_, ?_, ?_, ?_, ?_, ?_, ?_, ?_,
    ⟨jsOrStr msg ("Route fetch failed") ++ " ", errStrV1 sv leg msg⟩,
    ?_, ?_, ?_, ?_, ?_, ?_, ?_, ?_, ?_, ?_,
    ⟨jsOrStr msg ("Route fetch failed") ++ " ", errStrVias sw msg⟩,
    ?_, ?_, ?_, ?_, ?_, ?_, ?_, ?_⟩
  · intro l
    cases leg <;> cases l <;>
      simp [fetchLegError, getLeg, setLeg]
  all_goals
    cases leg <;>
      simp [fetchLegError, v1FetchError, viasFetchError, getLeg, setLeg]

/-- C10: the Clear button resets the ride state — driver and destination (and
vias) to null/empty, route polylines to empty, distances and ETAs to null,
the error string to empty; in the third iteration it also re-enables follow
mode, resets the per-leg gating records and aborts both current in-flight
controllers — while leaving the user's GPS position and accuracy unchanged,
in all three iterations. -/
theorem clear_resets_ride_state (s : St) (sv : V1State) (sw : ViasState) :
    (clearV3 s).driver = none ∧ (clearV3 s).dest = none
    ∧ (clearV3 s).du.km = none ∧ (clearV3 s).ud.km = none
    ∧ (clearV3 s).du.mins = none ∧ (clearV3 s).ud.mins = none
    ∧ (clearV3 s).du.route = [] ∧ (clearV3 s).ud.route = []
    ∧ (clearV3 s).error = "" ∧ (clearV3 s).follow = true
    ∧ (clearV3 s).du.gate = ⟨none, none, 0⟩
    ∧ (clearV3 s).ud.gate = ⟨none, none, 0⟩
    ∧ (∀ c, s.du.ctrl = some c → c ∈ (clearV3 s).aborted)
    ∧ (∀ c, s.ud.ctrl = some c → c ∈ (clearV3 s).aborted)
    ∧ (clearV3 s).position = s.position ∧ (clearV3 s).accuracy = s.accuracy
    ∧ (clearV1 sv).driver = none ∧ (clearV1 sv).dest = none
    ∧ (clearV1 sv).routeDU = [] ∧ (clearV1 sv).routeUD = []
    ∧ (clearV1 sv).kmDU = none ∧ (clearV1 sv).kmUD = none
    ∧ (clearV1 sv).minDU = none ∧ (clearV1 sv).minUD = none
    ∧ (clearV1 sv).error = ""
    ∧ (clearV1 sv).position = sv.position
    ∧ (clearV1 sv).accuracy = sv.accuracy
    ∧ (clearVias sw).dest = none ∧ (clearVias sw).vias = []
    ∧ (clearVias sw).routeCoords = []
    ∧ (clearVias sw).distanceKm = none ∧ (clearVias sw).durationMin = none
    ∧ (clearVias sw).error = ""
    ∧ (clearVias sw).position = sw.position
    ∧ (clearVias sw).accuracy = sw.accuracy := by
  refine ⟨rfl, rfl, rfl, rfl, rfl, rfl, rfl, rfl, rfl, rfl, rfl, rfl,
    ?_, ?_, rfl, rfl, rfl, rfl, rfl, rfl, rfl, rfl, rfl, rfl, rfl, rfl, rfl,
    rfl, rfl, rfl, rfl, rfl, rfl, rfl, rfl⟩
  · intro c hc
    simp [clearV3, ctrlToList, hc]
  · intro c hc
    simp [clearV3, ctrlToList, hc]

theorem clear_resets_ride_state_witness :
    0 ∈ (clearV3 sampleSt).aborted ∧ 1 ∈ (clearV3 sampleSt).aborted := by
  obtain ⟨-, -, -, -, -, -, -, -, -, -, -, -, hdu, hud, -⟩ :=
    clear_resets_ride_state sampleSt sampleV1 sampleVias
  exact ⟨hdu 0 rfl, hud 1 rfl⟩

lemma fetchLegStart_issue (T : TrigOps) (s : St) (leg : Leg) (f t : Point)
    (now : ℤ) (tok2 : ℕ)
    (h : (fetchLegStart T s leg (some f) (some t) now).2 = some tok2) :
    tok2 = s.nextTok
    ∧ (getLeg (fetchLegStart T s leg (some f) (some t) now).1 leg).ctrl
        = some s.nextTok := by
  by_cases hs : skipGate T (getLeg s leg) f t now
  · simp [fetchLegStart, hs] at h
  · constructor
    · simp [fetchLegStart, hs] at h
      omega
    · cases leg <;>
        (simp only [getLeg] at hs
         simp [fetchLegStart, hs, getLeg, setLeg])

lemma ctrlBound_fetchLegStart (T : TrigOps) (s : St) (leg : Leg)
    (fp tp : Option Point) (now : ℤ) (h : ctrlBound s) :
    ctrlBound (fetchLegStart T s leg fp tp now).1 := by
  cases fp with
  | none => simpa [fetchLegStart] using h
  | some f =>
    cases tp with
    | none => simpa [fetchLegStart] using h
    | some t =>
      by_cases hs : skipGate T (getLeg s leg) f t now
      · simpa [fetchLegStart, hs] using h
      · intro l tok htok
        have hDU := h Leg.DU
        have hUD := h Leg.UD
        simp only [getLeg] at hDU hUD
        cases leg <;> cases l <;>
          (simp only [getLeg] at hs
           simp only [fetchLegStart, hs, getLeg, setLeg, Bool.false_eq_true,
             if_false, Option.some.injEq] at htok ⊢)
        · omega
        · exact Nat.lt_succ_of_lt (hUD tok htok)
        · exact Nat.lt_succ_of_lt (hDU tok htok)
        · omega

lemma ctrl_stepV3 (T : TrigOps) (s : St) (e : Ev)
    (hnotstart : ∀ leg fp tp now, e ≠ Ev.start leg fp tp now) :
    (∀ l, (getLeg (stepV3 T s e) l).ctrl = (getLeg s l).ctrl)
    ∧ (stepV3 T s e).nextTok = s.nextTok := by
  cases e with
  | start leg fp tp now => exact absurd rfl (hnotstart leg fp tp now)
  | success leg tok path dm ds =>
    constructor
    · intro l
      by_cases hif : (getLeg s leg).ctrl = some tok <;> cases leg <;> cases l <;>
        (simp only [getLeg] at hif
         simp [stepV3, fetchLegSuccess, hif, getLeg, setLeg])
    · by_cases hif : (getLeg s leg).ctrl = some tok <;> cases leg <;>
        (simp only [getLeg] at hif
         simp [stepV3, fetchLegSuccess, hif, getLeg, setLeg])
  | failure leg isAbort msg =>
    constructor
    · intro l
      cases isAbort <;> cases leg <;> cases l <;>
        simp [stepV3, fetchLegError, getLeg, setLeg]
    · cases isAbort <;> cases leg <;>
        simp [stepV3, fetchLegError, getLeg, setLeg]
  | fallDU =>
    constructor
    · intro l
      cases hp : s.driver <;> cases hq : s.position <;> cases l <;>
        simp [stepV3, fallbackDU, hp, hq, getLeg, setLeg]
    · cases hp : s.driver <;> cases hq : s.position <;>
        simp [stepV3, fallbackDU, hp, hq, getLeg, setLeg]
  | fallUD =>
    constructor
    · intro l
      cases hp : s.position <;> cases hq : s.dest <;> cases l <;>
        simp [stepV3, fallbackUD, hp, hq, getLeg, setLeg]
    · cases hp : s.position <;> cases hq : s.dest <;>
        simp [stepV3, fallbackUD, hp, hq, getLeg, setLeg]
  | clear =>
    exact ⟨fun l => by cases l <;> simp [stepV3, clearV3, getLeg], rfl⟩
  | setDriver p => exact ⟨fun l => by cases l <;> rfl, rfl⟩
  | setDest p => exact ⟨fun l => by cases l <;> rfl, rfl⟩

lemma ctrlBound_stepV3 (T : TrigOps) (s : St) (e : Ev) (h : ctrlBound s) :
    ctrlBound (stepV3 T s e) := by
  cases he : e with
  | start leg fp tp now => exact ctrlBound_fetchLegStart T s leg fp tp now h
  | success leg tok path dm ds =>
    intro l tk htk
    obtain ⟨hc, hn⟩ := ctrl_stepV3 T s (Ev.success leg tok path dm ds)
      (by intro _ _ _ _ hne; exact Ev.noConfusion hne)
    rw [hc l] at htk
    rw [hn]
    exact h l tk htk
  | failure leg isAbort msg =>
    intro l tk htk
    obtain ⟨hc, hn⟩ := ctrl_stepV3 T s (Ev.failure leg isAbort msg)
      (by intro _ _ _ _ hne; exact Ev.noConfusion hne)
    rw [hc l] at htk
    rw [hn]
    exact h l tk htk
  | fallDU =>
    intro l tk htk
    obtain ⟨hc, hn⟩ := ctrl_stepV3 T s Ev.fallDU
      (by intro _ _ _ _ hne; exact Ev.noConfusion hne)
    rw [hc l] at htk
    rw [hn]
    exact h l tk htk
  | fallUD =>
    intro l tk htk
    obtain ⟨hc, hn⟩ := ctrl_stepV3 T s Ev.fallUD
      (by intro _ _ _ _ hne; exact Ev.noConfusion hne)
    rw [hc l] at htk
    rw [hn]
    exact h l tk htk
  | clear =>
    intro l tk htk
    obtain ⟨hc, hn⟩ := ctrl_stepV3 T s Ev.clear
      (by intro _ _ _ _ hne; exact Ev.noConfusion hne)
    rw [hc l] at htk
    rw [hn]
    exact h l tk htk
  | setDriver p =>
    intro l tk htk
    obtain ⟨hc, hn⟩ := ctrl_stepV3 T s (Ev.setDriver p)
      (by intro _ _ _ _ hne; exact Ev.noConfusion hne)
    rw [hc l] at htk
    rw [hn]
    exact h l tk htk
  | setDest p =>
    intro l tk htk
    obtain ⟨hc, hn⟩ := ctrl_stepV3 T s (Ev.setDest p)
      (by intro _ _ _ _ hne; exact Ev.noConfusion hne)
    rw [hc l] at htk
    rw [hn]
    exact h l tk htk

lemma ctrlBound_initState : ctrlBound initState := by
  intro l tok h
  cases l <;> simp [getLeg, initState] at h

lemma ctrlBound_runV3 (T : TrigOps) (es : List Ev) :
    ctrlBound (runV3 T initState es) := by
  suffices H : ∀ s, ctrlBound s → ctrlBound (runV3 T s es) from
    H initState ctrlBound_initState
  induction es with
  | nil => exact fun s hs => hs
  | cons e es ih => exact fun s hs => ih (stepV3 T s e) (ctrlBound_stepV3 T s e hs)

/-- C3: before a new route request for a leg passes the gate, the previously
in-flight request is cancelled — its controller's token joins the aborted
list — the new fetch is issued with the freshly allocated controller's token,
and an `AbortError` raised by such a cancellation is swallowed: the error
string and all route state stay exactly as they were, only the `finally`
clause resets the loading flag. -/
theorem abort_previous_and_swallow_abort_error :
    (∀ T : TrigOps, ∀ s : St, ∀ leg : Leg, ∀ f t : Point, ∀ now : ℤ, ∀ c : ℕ,
        (getLeg s leg).ctrl = some c →
        skipGate T (getLeg s leg) f t now = false →
        (fetchLegStart T s leg (some f) (some t) now).1.aborted = c :: s.aborted
        ∧ (fetchLegStart T s leg (some f) (some t) now).2 = some s.nextTok
        ∧ (getLeg (fetchLegStart T s leg (some f) (some t) now).1 leg).ctrl
            = some s.nextTok)
    ∧ (∀ s : St, ∀ leg : Leg, ∀ msg : Option String,
        fetchLegError s leg true msg
          = setLeg s leg { getLeg s leg with loading := false }) := by
  constructor
  · intro T s leg f t now c hc hskip
    refine ⟨?_, ?_, ?_⟩ <;>
      (cases leg <;>
        (simp only [getLeg] at hc hskip
         simp [fetchLegStart, hskip, hc, getLeg, setLeg]))
  · intro s leg msg
    rfl

theorem abort_previous_and_swallow_abort_error_witness :
    (fetchLegStart trigZero sampleSt .DU (some (3, 4)) (some (1, 2)) 6000).1.aborted
        = [0]
    ∧ (fetchLegStart trigZero sampleSt .DU (some (3, 4)) (some (1, 2)) 6000).2
        = some 2
    ∧ (getLeg (fetchLegStart trigZero sampleSt .DU (some (3, 4)) (some (1, 2)) 6000).1
        .DU).ctrl = some 2 :=
  abort_previous_and_swallow_abort_error.1 trigZero sampleSt .DU (3, 4) (1, 2)
    6000 0 rfl (by decide)

/-- C1: last write wins per leg — a success response whose AbortController is
no longer the leg's current one changes no route state (only the `finally`
loading reset happens); a response whose controller is still current installs
its polyline, distance and ETA; and in any reachable state, issuing a new
request for a leg makes the stored controller differ from every previously
current token, so responses of superseded requests are discarded. -/
theorem stale_response_discarded_last_write_wins :
    (∀ s : St, ∀ leg : Leg, ∀ tok : ℕ, ∀ path : List Point, ∀ dm ds : ℚ,
        (getLeg s leg).ctrl ≠ some tok →
        fetchLegSuccess s leg tok path dm ds
          = setLeg s leg { getLeg s leg with loading := false })
    ∧ (∀ s : St, ∀ leg : Leg, ∀ tok : ℕ, ∀ path : List Point, ∀ dm ds : ℚ,
        (getLeg s leg).ctrl = some tok →
        (getLeg (fetchLegSuccess s leg tok path dm ds) leg).route = path
        ∧ (getLeg (fetchLegSuccess s leg tok path dm ds) leg).km
            = some (dm / 1000)
        ∧ (getLeg (fetchLegSuccess s leg tok path dm ds) leg).mins
            = some (etaRoute ds))
    ∧ (∀ T : TrigOps, ∀ es : List Ev, ∀ leg : Leg, ∀ f t : Point, ∀ now : ℤ,
        ∀ tok : ℕ,
        (getLeg (runV3 T initState es) leg).ctrl = some tok →
        ∀ tok2 : ℕ,
          (fetchLegStart T (runV3 T initState es) leg (some f) (some t) now).2
              = some tok2 →
          tok2 ≠ tok
          ∧ (getLeg
              (fetchLegStart T (runV3 T initState es) leg (some f) (some t) now).1
              leg).ctrl = some tok2) := by
  refine ⟨?_, ?_, ?_⟩
  · intro s leg tok path dm ds h
    simp [fetchLegSuccess, h]
  · intro s leg tok path dm ds h
    simp [fetchLegSuccess, h, getLeg_setLeg_self]
  · intro T es leg f t now tok hcur tok2 hiss
    obtain ⟨h1, h2⟩ :=
      fetchLegStart_issue T (runV3 T initState es) leg f t now tok2 hiss
    have hb := ctrlBound_runV3 T es leg tok hcur
    constructor
    · omega
    · rw [h2, h1]

theorem stale_response_discarded_last_write_wins_witness :
    (1 ≠ 0)
    ∧ (getLeg (fetchLegStart trigZero
          (runV3 trigZero initState [Ev.start .DU (some (3, 4)) (some (1, 2)) 0])
          .DU (some (3, 4)) (some (1, 2)) 6000).1 .DU).ctrl = some 1 :=
  stale_response_discarded_last_write_wins.2.2 trigZero
    [Ev.start .DU (some (3, 4)) (some (1, 2)) 0] .DU (3, 4) (1, 2) 6000 0
    (by decide) 1 (by decide)

lemma https_split (a : String) :
    "https://router.project-osrm.org/route/v1/driving/" ++ a
      = "https://" ++ ("router.project-osrm.org/route/v1/driving/" ++ a) := by
  rw [show ("https://router.project-osrm.org/route/v1/driving/" : String)
        = "https://" ++ "router.project-osrm.org/route/v1/driving/" from rfl,
      String.append_assoc]

/-- C6 counterexample: the claim says every issued OSRM request URL uses the
`http` scheme, but the URL the multi-leg iterations build (here at a concrete
formatter and endpoints) does not start with `http://` — its scheme is
`https`. -/
theorem osrm_url_scheme_counterexample :
    "http://".data.isPrefixOf (osrmUrl fmtZero (1, 2) (3, 4)).data = false
    ∧ "https://".data.isPrefixOf (osrmUrl fmtZero (1, 2) (3, 4)).data = true := by
  decide

/-- C6 (amended): the component calls the public OSRM routing API over HTTPS:
every request URL built for the OSRM endpoint — `osrmUrl` in both multi-leg
iterations and `buildRouteUrl` in the vias version — uses the `https`
scheme. -/
theorem osrm_urls_use_https_scheme :
    (∀ fmt : ℚ → String, ∀ f t : Point,
        ∃ rest, osrmUrl fmt f t = "https://" ++ rest)
    ∧ (∀ fmt : ℚ → String, ∀ enc : String → String, ∀ s : ViasState,
        ∀ url : String, buildRouteUrl fmt enc s = some url →
        ∃ rest, url = "https://" ++ rest) := by
  constructor
  · intro fmt f t
    exact ⟨_, (String.append_assoc _ _ _).trans (https_split _)⟩
  · intro fmt enc s url h
    cases hp : s.position with
    | none => simp [buildRouteUrl, hp] at h
    | some p =>
      cases hd : s.dest with
      | none => simp [buildRouteUrl, hp, hd] at h
      | some d =>
        simp only [buildRouteUrl, hp, hd, Option.some.injEq] at h
        exact ⟨_, h.symm.trans ((String.append_assoc _ _ _).trans
          ((String.append_assoc _ _ _).trans (https_split _)))⟩

theorem osrm_urls_use_https_scheme_witness :
    ∃ rest, (buildRouteUrl fmtZero id sampleVias).getD "" = "https://" ++ rest :=
  osrm_urls_use_https_scheme.2 fmtZero id sampleVias
    ((buildRouteUrl fmtZero id sampleVias).getD "") (by rfl)
